import Mathlib

/-!
Verification of the ultrasonic animal/vehicle collision-warning system
against its Python sources (`main.py`, `old.py`, `gem.py`,
`realfinalnocap.py`, `speedtest.py`, `ani_det.py`).

Machine floating-point numbers are modelled by exact rationals; the
monotonic clock and GPIO echo lines are modelled by explicit instants
passed to the embedded functions.
-/

namespace AnimalClassifier

/-- Constant `ECHO_TIMEOUT = 0.03` s: maximum wait for an echo edge
(main.py line 26, gem.py line 12). -/
def ECHO_TIMEOUT : ℚ := 3 / 100

/-- Constant `CRITICAL_TIME_DIFF = 1.0` s (main.py line 23). -/
def CRITICAL_TIME_DIFF : ℚ := 1

/-- Embeds `measure_distance` of gem.py lines 28-60 (the same function, line
for line, appears in realfinalnocap.py lines 46-78 and speedtest.py
lines 46-78).  The echo line is modelled by the instant it first goes high
(`rise`, `none` when it never does) and the instant it then returns low
(`fall`, `none` when it never does); `start` is the monotonic time at which
the first busy-wait begins, and the embedding assumes the pulse does not
precede it.  Each busy-wait loop returns `none` only when a poll happens
strictly after its deadline, so an edge landing exactly on the deadline is
still accepted.  The function is total: every failure is the `none` value,
never an exception. -/
def measure_distance (start : ℚ) (rise fall : Option ℚ) : Option ℚ :=
  match rise with
  | none => none
  | some t0 =>
    if start + ECHO_TIMEOUT < t0 then none
    else
      match fall with
      | none => none
      | some t1 =>
        if t0 + ECHO_TIMEOUT < t1 then none
        else
          if t1 - t0 ≤ 0 ∨ 3 / 100 < t1 - t0 then none
          else some ((t1 - t0) * 343 / 2)

/-- C4: for a simulated echo pulse whose high duration is `d` seconds with
`0 < d ≤ ECHO_TIMEOUT`, and whose rise is observed within the timeout
window, `measure_distance` returns the valid distance `d * 343.0 / 2`
metres, exactly. -/
theorem measure_distance_valid_echo (start t0 d : ℚ)
    (hrise : t0 ≤ start + ECHO_TIMEOUT) (hd0 : 0 < d) (hdT : d ≤ ECHO_TIMEOUT) :
    measure_distance start (some t0) (some (t0 + d)) = some (d * 343 / 2) := by
  have hsub : t0 + d - t0 = d := by ring
  unfold ECHO_TIMEOUT at hrise hdT
  simp only [measure_distance, ECHO_TIMEOUT, hsub]
  rw [if_neg (by linarith), if_neg (by linarith),
    if_neg (by rintro (h | h) <;> linarith)]

/-- Witness for `measure_distance_valid_echo` at `start = 0`, `t0 = 0`,
`d = 0.03`. -/
theorem measure_distance_valid_echo_witness :
    (0 : ℚ) ≤ 0 + ECHO_TIMEOUT ∧ (0 : ℚ) < 3 / 100 ∧ (3 / 100 : ℚ) ≤ ECHO_TIMEOUT ∧
      measure_distance 0 (some 0) (some (0 + 3 / 100)) = some (3 / 100 * 343 / 2) :=
  ⟨by norm_num [ECHO_TIMEOUT], by norm_num, by norm_num [ECHO_TIMEOUT],
    measure_distance_valid_echo 0 0 (3 / 100) (by norm_num [ECHO_TIMEOUT])
      (by norm_num) (by norm_num [ECHO_TIMEOUT])⟩

/-- C5: `measure_distance` returns the invalid marker `none` (and, being a
total function, raises nothing) in exactly these cases: the echo never
rises within `ECHO_TIMEOUT` of the start of the wait (including never
rising at all); it rises in time but never falls within `ECHO_TIMEOUT`
measured from the rise (including never falling at all); or the elapsed
high time is zero or negative. -/
theorem measure_distance_none_iff (start : ℚ) (rise fall : Option ℚ) :
    measure_distance start rise fall = none ↔
      (∀ t0, rise = some t0 → start + ECHO_TIMEOUT < t0) ∨
      (∃ t0, rise = some t0 ∧ t0 ≤ start + ECHO_TIMEOUT ∧
        ∀ t1, fall = some t1 → t0 + ECHO_TIMEOUT < t1) ∨
      (∃ t0 t1, rise = some t0 ∧ fall = some t1 ∧ t1 - t0 ≤ 0) := by
  cases rise with
  | none => simp [measure_distance]
  | some t0 =>
    cases fall with
    | none =>
      simp only [measure_distance]
      split_ifs with h1
      · simp only [true_iff]
        left
        intro t ht
        cases ht
        exact h1
      · push_neg at h1
        simp only [true_iff]
        right; left
        exact ⟨t0, rfl, h1, by intro t1 ht1; cases ht1⟩
    | some t1 =>
      simp only [measure_distance]
      split_ifs with h1 h2 h3
      · simp only [true_iff]
        left
        intro t ht
        cases ht
        exact h1
      · simp only [true_iff]
        right; left
        push_neg at h1
        refine ⟨t0, rfl, h1, ?_⟩
        intro u hu
        cases hu
        exact h2
      · simp only [true_iff]
        rcases h3 with h3 | h3
        · right; right
          exact ⟨t0, t1, rfl, rfl, h3⟩
        · push_neg at h2
          unfold ECHO_TIMEOUT at h2
          exact absurd h3 (by push_neg; linarith)
      · push_neg at h1 h2 h3
        simp only [Option.some_ne_none, false_iff]
        push_neg
        refine ⟨⟨t0, rfl, h1⟩, ?_, ?_⟩
        · intro u hu hle
          cases hu
          exact ⟨t1, rfl, h2⟩
        · intro a b ha hb
          cases ha
          cases hb
          exact h3.1

/-! ## Multi-sample regression estimator (`measure_speed`, main.py lines 81-125) -/

/-- Insert into an ascending sorted list; used to mirror how Python sorts
a slice before taking its median (the median depends only on the sorted
order, so insertion sort is an adequate model of `sorted`). -/
def insertSorted (x : ℚ) : List ℚ → List ℚ
  | [] => [x]
  | y :: ys => if x ≤ y then x :: y :: ys else y :: insertSorted x ys

/-- Ascending sort by repeated insertion. -/
def sortQ (l : List ℚ) : List ℚ := l.foldr insertSorted []

/-- Python `statistics.median` (main.py line 107): middle element of the sorted
list for odd length, mean of the two middle elements for even length. -/
def pymedian (l : List ℚ) : ℚ :=
  let s := sortQ l
  let n := s.length
  if n % 2 = 1 then s.getD (n / 2) 0
  else (s.getD (n / 2 - 1) 0 + s.getD (n / 2) 0) / 2

/-- Median smoothing with window radius `k = 2` (main.py lines 100-107):
`smoothed[i] = median(ds[max 0 (i-2) : min n (i+3)])`; truncated `Nat`
subtraction supplies the `max 0` clamp of the Python slice. -/
def medianSmooth (ds : List ℚ) : List ℚ :=
  (List.range ds.length).map fun i =>
    pymedian ((ds.drop (i - 2)).take (min ds.length (i + 3) - (i - 2)))

/-- The sampling loop of `measure_speed` (main.py lines 88-98): each sample
is a measured distance (`none` on sensor failure) paired with its
timestamp; a `none` anywhere aborts the collection, as the Python loop
returns early on the first failed sample. -/
def collectSamples : List (Option ℚ × ℚ) → Option (List ℚ × List ℚ)
  | [] => some ([], [])
  | (none, _) :: _ => none
  | (some d, t) :: rest =>
    (collectSamples rest).map fun p => (d :: p.1, t :: p.2)

/-- Embeds `measure_speed` of main.py lines 81-125 on a given sample
sequence: `(0, none)` if any sample failed; otherwise median-smooth the
distances, fit a least-squares line of smoothed distance against time
elapsed since the first sample, and return `(slope, last smoothed value)`;
a degenerate time variance (`denom = 0`, all samples at one instant)
returns `(0, last smoothed value)`. -/
def measure_speed (samples : List (Option ℚ × ℚ)) : ℚ × Option ℚ :=
  match collectSamples samples with
  | none => (0, none)
  | some (ds, ts) =>
    let ys := medianSmooth ds
    let xs := ts.map (fun t => t - ts.headD 0)
    let n : ℚ := xs.length
    let sumx := xs.sum
    let sumy := ys.sum
    let sumxy := ((xs.zip ys).map fun p => p.1 * p.2).sum
    let sumx2 := (xs.map fun x => x * x).sum
    let denom := n * sumx2 - sumx * sumx
    if denom = 0 then (0, ys.getLast?)
    else ((n * sumxy - sumx * sumy) / denom, ys.getLast?)

/-- C8: on six valid samples all taken at the same instant (degenerate time
variance, `denom = 0`), `measure_speed` returns speed `0.0` together with a
present (non-`none`) distance — indistinguishable from a genuine zero-speed
measurement, not an invalid estimate. -/
theorem measure_speed_degenerate_times_reports_zero :
    measure_speed [(some 2, 5), (some 2, 5), (some 2, 5),
        (some 2, 5), (some 2, 5), (some 2, 5)] = (0, some 2) := by
  norm_num [measure_speed, collectSamples, medianSmooth,
    show List.range 6 = [0, 1, 2, 3, 4, 5] from rfl, pymedian, sortQ, insertSorted]

/-! ## Crash prediction (main loop of main.py, lines 184-226) -/

/-- Embeds `time_animal = (animal_distance - 0.06) / animal_speed` (main.py line
196): the convergence offset `0.06` m is subtracted from the animal
distance only. -/
def time_to_reach_animal (dist speed : ℚ) : ℚ := (dist - 6 / 100) / speed

/-- Embeds `time_car = car_distance / car_speed` (main.py line 211): the full
car distance, no offset. -/
def time_to_reach_car (dist speed : ℚ) : ℚ := dist / speed

/-- Outcome of one crash-prediction pass of the main loop. -/
inductive CycleOutcome
  | recedingSkip
  | noAnimalDistance
  | noCarDistance
  | divByZero
  | alert
  | safe
deriving DecidableEq

/-- Embeds the crash-prediction tail of the main loop (main.py lines
184-226) as a function of the two channel estimates, in the source
order: skip when `animal_speed < 0`, skip when the animal distance is
`None`, compute `time_animal`, skip when the car distance is `None`,
compute `time_car` with no check on the car speed, and compare
`|time_animal - time_car|` with `CRITICAL_TIME_DIFF`.  Python raises
`ZeroDivisionError` on float division by exact zero, modelled by the
explicit `divByZero` outcome. -/
def crash_prediction (animal_speed : ℚ) (animal_distance : Option ℚ)
    (car_speed : ℚ) (car_distance : Option ℚ) : CycleOutcome :=
  if animal_speed < 0 then .recedingSkip
  else
    match animal_distance with
    | none => .noAnimalDistance
    | some ad =>
      if animal_speed = 0 then .divByZero
      else
        match car_distance with
        | none => .noCarDistance
        | some cd =>
          if car_speed = 0 then .divByZero
          else
            if |time_to_reach_animal ad animal_speed -
                time_to_reach_car cd car_speed| < CRITICAL_TIME_DIFF then .alert
            else .safe

/-- The same tail as written in realfinalnocap.py lines 168-196: the
animal-speed and animal-distance guards are commented out there, and a car
speed of exact zero is silently replaced by the epsilon `0.00001` before
dividing (lines 179-181). -/
def crash_prediction_nocap (animal_speed animal_distance car_speed car_distance : ℚ) :
    CycleOutcome :=
  if animal_speed = 0 then .divByZero
  else
    if |time_to_reach_animal animal_distance animal_speed -
        time_to_reach_car car_distance
          (if car_speed = 0 then 1 / 100000 else car_speed)| < CRITICAL_TIME_DIFF then
      .alert
    else .safe

/-- C1: the two end-to-end collision scenarios of the specification.
Animal at `2.0` m approaching at `1.0` m/s gives `time_animal = 1.94` s;
car at `20.0` m at `20.0` m/s gives `time_car = 1.0` s, `delta = 0.94` s
and decision Alert; the same inputs with car speed `5.0` m/s give
`time_car = 4.0` s, `delta = 2.06` s and decision Safe. -/
theorem crash_prediction_spec_scenarios :
    time_to_reach_animal 2 1 = 97 / 50 ∧
    time_to_reach_car 20 20 = 1 ∧
    |time_to_reach_animal 2 1 - time_to_reach_car 20 20| = 47 / 50 ∧
    crash_prediction 1 (some 2) 20 (some 20) = .alert ∧
    time_to_reach_car 20 5 = 4 ∧
    |time_to_reach_animal 2 1 - time_to_reach_car 20 5| = 103 / 50 ∧
    crash_prediction 1 (some 2) 5 (some 20) = .safe := by
  refine ⟨by norm_num [time_to_reach_animal], by norm_num [time_to_reach_car],
    ?_, ?_, by norm_num [time_to_reach_car], ?_, ?_⟩
  · rw [time_to_reach_animal, time_to_reach_car,
      show ((2 : ℚ) - 6 / 100) / 1 - 20 / 20 = 47 / 50 by norm_num]
    exact abs_of_pos (by norm_num)
  · simp only [crash_prediction, time_to_reach_animal, time_to_reach_car,
      CRITICAL_TIME_DIFF]
    norm_num [abs_lt]
  · rw [time_to_reach_animal, time_to_reach_car,
      show ((2 : ℚ) - 6 / 100) / 1 - 20 / 5 = -(103 / 50) by norm_num, abs_neg]
    exact abs_of_pos (by norm_num)
  · simp only [crash_prediction, time_to_reach_animal, time_to_reach_car,
      CRITICAL_TIME_DIFF]
    norm_num [abs_lt]

/-- C2 (divergence witness): with a zero animal speed and a valid animal
distance the code divides by exact zero (`ZeroDivisionError`), and a
non-positive car speed is never checked — zero raises, a negative speed
yields a Safe/Alert decision; realfinalnocap.py instead substitutes the
epsilon `0.00001` and reaches a Safe decision.  None of these is the
Indeterminate stop the specification requires. -/
theorem crash_prediction_nonpositive_speed_divergence :
    crash_prediction 0 (some 2) 20 (some 20) = .divByZero ∧
    crash_prediction 1 (some 2) 0 (some 20) = .divByZero ∧
    crash_prediction 1 (some 2) (-5) (some 20) = .safe ∧
    crash_prediction_nocap 1 2 0 20 = .safe := by
  refine ⟨?_, ?_, ?_, ?_⟩ <;>
    · simp only [crash_prediction, crash_prediction_nocap, time_to_reach_animal,
        time_to_reach_car, CRITICAL_TIME_DIFF]
      norm_num [abs_lt]

/-! ## Motion gate (main loop step 1) -/

/-- Constant `MOTION_THRESHOLD = 0.005` m (main.py line 147, old.py line 190). -/
def MOTION_THRESHOLD : ℚ := 5 / 1000

/-- The motion gate of main.py lines 154-157: fires when the previous and
current readings are both valid, the current reading is below `50`, and
the absolute difference exceeds `MOTION_THRESHOLD`. -/
def motion_detected_main (prev cur : Option ℚ) : Bool :=
  match prev, cur with
  | some p, some d => decide (d < 50) && decide (|d - p| > MOTION_THRESHOLD)
  | _, _ => false

/-- The motion gate of old.py lines 197-200 and realfinalnocap.py lines
125-128: identical except that the near-field bound is `0.50` m. -/
def motion_detected_old (prev cur : Option ℚ) : Bool :=
  match prev, cur with
  | some p, some d => decide (d < 1 / 2) && decide (|d - p| > MOTION_THRESHOLD)
  | _, _ => false

/-- C3 (divergence witness): for consecutive valid readings `0.40` then
`1.2` m, the gate of main.py fires (its bound is `50`, not `0.5`), while
the gate of old.py/realfinalnocap.py does not; the remaining example pairs
behave as the specification states on the `0.50`-bound gate. -/
theorem motion_gate_range_bound_divergence :
    motion_detected_main (some (2 / 5)) (some (6 / 5)) = true ∧
    motion_detected_old (some (2 / 5)) (some (6 / 5)) = false ∧
    motion_detected_old (some (2 / 5)) (some (3 / 10)) = true ∧
    motion_detected_old (some (2 / 5)) (some (79 / 200)) = false ∧
    motion_detected_main none (some (6 / 5)) = false := by
  refine ⟨?_, ?_, ?_, ?_, rfl⟩ <;>
    · simp only [motion_detected_main, motion_detected_old, MOTION_THRESHOLD]
      norm_num [lt_abs]

/-! ## Two-point dual-channel estimator (`measure_speed_dual`) -/

/-- Embeds the per-channel arithmetic of `measure_speed_dual`, old.py lines
102-117, as a function of the four distance samples and the measured
elapsed time: returns `(car_speed, animal_speed, final_car_dist,
final_animal_dist)`.  When either sample of a channel is `None`, the
channel speed is silently set to the epsilon `0.00001` and its distance
to the second sample or the sentinel `-1` (speedtest.py lines 106-121 is
identical except that its fallback speed is `0.0`). -/
def measure_speed_dual (dist_car_1 dist_ani_1 dist_car_2 dist_ani_2 : Option ℚ)
    (actual_dt : ℚ) : ℚ × ℚ × ℚ × ℚ :=
  let car : ℚ × ℚ :=
    match dist_car_1, dist_car_2 with
    | some a, some b => ((a - b) / actual_dt, b)
    | _, _ => (1 / 100000, dist_car_2.getD (-1))
  let ani : ℚ × ℚ :=
    match dist_ani_1, dist_ani_2 with
    | some a, some b => ((a - b) / actual_dt, b)
    | _, _ => (1 / 100000, dist_ani_2.getD (-1))
  (car.1, ani.1, car.2, ani.2)

/-- The same arithmetic as written in `measure_speed` of gem.py lines
78-95 (and realfinalnocap.py lines 96-113): the fallback is speed `0.0`
and distance `0.0`. -/
def measure_speed_gem (dist_car_1 dist_ani_1 dist_car_2 dist_ani_2 : Option ℚ)
    (actual_dt : ℚ) : ℚ × ℚ × ℚ × ℚ :=
  let car : ℚ × ℚ :=
    match dist_car_1, dist_car_2 with
    | some a, some b => ((a - b) / actual_dt, b)
    | _, _ => (0, dist_car_2.getD 0)
  let ani : ℚ × ℚ :=
    match dist_ani_1, dist_ani_2 with
    | some a, some b => ((a - b) / actual_dt, b)
    | _, _ => (0, dist_ani_2.getD 0)
  (car.1, ani.1, car.2, ani.2)

/-- C6 (divergence witness): with a valid first car sample of `5.0` m and
an invalid second car sample, the old.py estimator reports car speed
`0.00001` m/s and car distance `-1` — plain numbers, while the animal
channel is computed normally; the gem.py variant reports `0.0` for both.
The return type carries no invalid marker at all: the estimate is always
four numbers. -/
theorem two_point_invalid_sample_numeric_fallback :
    measure_speed_dual (some 5) (some 2) none (some 1) 1 = (1 / 100000, 1, -1, 1) ∧
    measure_speed_gem (some 5) (some 2) none (some 1) 1 = (0, 1, 0, 1) := by
  refine ⟨?_, ?_⟩ <;> norm_num [measure_speed_dual, measure_speed_gem]

/-! ## Behaviour of the regression estimator on an exactly linear input (C7) -/

/-- C7 (counterexample): the synthetic noiseless input — six valid samples
spaced `0.035` s apart (the default delay of `measure_speed`) whose
distances fall from `5.00` m at exactly `2.0` m/s.  The median smoothing
with radius 2 does not reproduce the linear sequence (its edge windows are
asymmetric), and the fitted slope is exactly `-44/35 ≈ -1.257` m/s, whose
magnitude misses `2.0` by `26/35 ≈ 0.743` m/s — far outside any small
numeric tolerance; the returned speed is moreover negative for this
approaching object, since the code returns the raw slope. -/
theorem measure_speed_linear_input_counterexample :
    medianSmooth [5, 493 / 100, 486 / 100, 479 / 100, 472 / 100, 465 / 100]
        ≠ [5, 493 / 100, 486 / 100, 479 / 100, 472 / 100, 465 / 100] ∧
    measure_speed [(some 5, 0), (some (493 / 100), 7 / 200),
        (some (486 / 100), 7 / 100), (some (479 / 100), 21 / 200),
        (some (472 / 100), 7 / 50), (some (465 / 100), 7 / 40)]
      = (-(44 / 35), some (472 / 100)) ∧
    |(-(44 / 35) : ℚ)| = 44 / 35 ∧ (2 : ℚ) - 44 / 35 = 26 / 35 := by
  have hs : medianSmooth [5, 493 / 100, 486 / 100, 479 / 100, 472 / 100, 465 / 100]
      = [493 / 100, 979 / 200, 486 / 100, 479 / 100, 951 / 200, 472 / 100] := by
    norm_num [medianSmooth, show List.range 6 = [0, 1, 2, 3, 4, 5] from rfl,
      pymedian, sortQ, insertSorted]
  refine ⟨by rw [hs]; norm_num, ?_, by rw [abs_neg]; exact abs_of_pos (by norm_num),
    by norm_num⟩
  norm_num [measure_speed, collectSamples, medianSmooth,
    show List.range 6 = [0, 1, 2, 3, 4, 5] from rfl, pymedian, sortQ, insertSorted]

/-- C7 (amended): for any start distance `D0` and start time `t0`, on six
valid noiseless samples spaced `0.035` s apart decreasing at exactly
`2.0` m/s, the median smoothing with radius 2 reproduces the line only at
the interior indices — the smoothed sequence is
`[d1, (d1+d2)/2, d2, d3, (d3+d4)/2, d4]` — and `measure_speed` returns the
slope `-44/35` m/s exactly (magnitude `≈ 1.257`, not `2.0`; negative for an
approaching object) together with the last smoothed value `d4 = D0 - 0.28`
as the reported distance. -/
theorem measure_speed_linear_input_amended (D0 t0 : ℚ) :
    medianSmooth [D0, D0 - 7 / 100, D0 - 7 / 50, D0 - 21 / 100,
        D0 - 7 / 25, D0 - 7 / 20]
      = [D0 - 7 / 100, D0 - 21 / 200, D0 - 7 / 50, D0 - 21 / 100,
        D0 - 49 / 200, D0 - 7 / 25] ∧
    measure_speed [(some D0, t0), (some (D0 - 7 / 100), t0 + 7 / 200),
        (some (D0 - 7 / 50), t0 + 7 / 100), (some (D0 - 21 / 100), t0 + 21 / 200),
        (some (D0 - 7 / 25), t0 + 7 / 50), (some (D0 - 7 / 20), t0 + 7 / 40)]
      = (-(44 / 35), some (D0 - 7 / 25)) := by
  have e1 : ∀ a b : ℚ, (D0 - a ≤ D0 - b) = (b ≤ a) := fun a b =>
    propext (sub_le_sub_iff_left D0)
  have e2 : ∀ b : ℚ, (D0 ≤ D0 - b) = (b ≤ 0) := fun b =>
    propext (le_sub_self_iff D0)
  have e3 : ∀ a : ℚ, (D0 - a ≤ D0) = (0 ≤ a) := fun a =>
    propext (sub_le_self_iff D0)
  constructor
  · norm_num [medianSmooth, List.length_cons, List.length_nil,
      show List.range 6 = [0, 1, 2, 3, 4, 5] from rfl,
      pymedian, sortQ, insertSorted, e1, e2, e3]
    constructor <;> ring
  · norm_num [measure_speed, collectSamples, medianSmooth,
      List.length_cons, List.length_nil,
      show List.range 6 = [0, 1, 2, 3, 4, 5] from rfl,
      pymedian, sortQ, insertSorted, e1, e2, e3]
    ring_nf

/-! ## Classifier invocation and token parsing (C9) -/

/-- Python `str.strip`: remove leading and trailing whitespace. -/
def pyStrip (s : List Char) : List Char :=
  ((s.dropWhile Char.isWhitespace).reverse.dropWhile Char.isWhitespace).reverse

/-- Python `str.lower` (on the ASCII output of the classifier). -/
def pyLower (s : List Char) : List Char := s.map Char.toLower

/-- Python `in` on strings: the needle occurs contiguously in the hay. -/
def containsTok (needle : List Char) : List Char → Bool
  | [] => needle.isEmpty
  | c :: rest => needle.isPrefixOf (c :: rest) || containsTok needle rest

/-- The classifier-output parsing of main.py lines 166-181:
`result = check_output(...).decode().strip().lower()`, and the run counts
as a positive animal verdict — the loop proceeds to velocity estimation —
iff `"no_animal" in result` is false. -/
def classifier_run_positive (output : String) : Bool :=
  ! containsTok "no_animal".data (pyLower (pyStrip output.data))

/-- The separator that ani_det.py prints as 50 repeated equality signs. -/
def sepLine : String := ⟨List.replicate 50 (Char.ofNat 61)⟩

/-- Models the stdout of one successful run of the `main()` of ani_det.py
(lines 213-269): the setup lines, the RESULTS block, then the verdict
lines 260-266 that print the machine-readable token `"animal"` exactly
when an animal was detected and `"no_animal"` exactly when not.  The
numeric fields are representative concrete values; the format strings of
the source can only put digits and periods there. -/
def ani_det_output (is_animal : Bool) : String :=
  "Model found: realfinal.tflite\n" ++
  "Found camera command: rpicam-still\n" ++
  "Model loaded successfully\n" ++
  "  Input shape: [1, 96, 96, 3]\n" ++
  "  Input dtype: float32\n" ++
  "  Output shape: [1, 2]\n" ++
  "Capturing photo...\n" ++
  "Photo captured: capture.jpg\n" ++
  "Inference completed in 42.5ms\n" ++
  "\n" ++
  sepLine ++ "\n" ++
  "RESULTS\n" ++
  sepLine ++ "\n" ++
  (if is_animal then "Animal probability: 0.9123\nNo-animal probability: 0.0877\n"
   else "Animal probability: 0.0877\nNo-animal probability: 0.9123\n") ++
  "Confidence: 0.9123\n" ++
  "Inference time: 42.5ms\n" ++
  "\n" ++
  (if is_animal then "ANIMAL DETECTED\nanimal\n"
   else "NO ANIMAL DETECTED\nno_animal\n") ++
  (sepLine ++ "\n")

set_option maxRecDepth 40000 in
/-- C9: composing the main-loop parsing with the in-repo classifier
output: a run is treated as a positive animal verdict iff the classifier
detected an animal, because the token `"no_animal"` appears in the
(stripped, lowercased) output exactly in the no-animal case — no other
line of the output, including the lowercased `"no animal detected"` and
`"no-animal probability"` texts, contains that underscore token. -/
theorem classifier_token_round_trip :
    classifier_run_positive (ani_det_output true) = true ∧
    classifier_run_positive (ani_det_output false) = false :=
  ⟨rfl, rfl⟩

/-! ## GPIO side effects of the dual two-point estimator (C10) -/

/-- The four GPIO output lines driven anywhere in old.py/speedtest.py. -/
inductive Pin
  | led
  | buzzer
  | trigCar
  | trigAni
deriving DecidableEq

/-- One GPIO-affecting step: an output-line write or a sleep. -/
inductive GpioEvent
  | setLine : Pin → Bool → GpioEvent
  | sleep : ℚ → GpioEvent
deriving DecidableEq

/-- Output calls of `measure_distance` (old.py lines 50-53): the bare
10 µs trigger pulse. -/
def measure_distance_events_old (trig : Pin) : List GpioEvent :=
  [.setLine trig true, .sleep (1 / 100000), .setLine trig false]

/-- Output calls of `measure_distance` (speedtest.py lines 46-54): settle
the line low for 2 µs, then the 10 µs trigger pulse. -/
def measure_distance_events_st (trig : Pin) : List GpioEvent :=
  [.setLine trig false, .sleep (1 / 500000), .setLine trig true,
    .sleep (1 / 100000), .setLine trig false]

/-- GPIO trace of one invocation of `measure_speed_dual` (old.py lines
76-97): first samples of the car and animal channels, LED and buzzer
driven high, the inter-sample sleep of `delay` seconds, LED and buzzer
driven low, then the second samples. -/
def measure_speed_dual_events (delay : ℚ) : List GpioEvent :=
  measure_distance_events_old .trigCar ++ measure_distance_events_old .trigAni ++
    [.setLine .led true, .setLine .buzzer true, .sleep delay,
      .setLine .led false, .setLine .buzzer false] ++
    measure_distance_events_old .trigCar ++ measure_distance_events_old .trigAni

/-- GPIO trace of one invocation of `measure_speed_dual` (speedtest.py
lines 80-101): same shape, but the inter-sample sleep is the hard-coded
`1.2` s of line 91 — the `delay` parameter is unused there. -/
def measure_speed_dual_events_st (_delay : ℚ) : List GpioEvent :=
  measure_distance_events_st .trigCar ++ measure_distance_events_st .trigAni ++
    [.setLine .led true, .setLine .buzzer true, .sleep (6 / 5),
      .setLine .led false, .setLine .buzzer false] ++
    measure_distance_events_st .trigCar ++ measure_distance_events_st .trigAni

/-- The successive levels written to one pin along a trace. -/
def setsOn (p : Pin) (tr : List GpioEvent) : List Bool :=
  tr.filterMap fun e =>
    match e with
    | .setLine q b => if q = p then some b else none
    | .sleep _ => none

/-- The pins of all line writes along a trace, in order. -/
def pinsSet (tr : List GpioEvent) : List Pin :=
  tr.filterMap fun e =>
    match e with
    | .setLine q _ => some q
    | .sleep _ => none

/-- C10 (counterexample): the estimator does change output lines other
than the two alert-actuator lines — each invocation drives both sensor
trigger lines (shown at the old.py call-site delay of `0.9` s). -/
theorem measure_speed_dual_touches_trigger_lines :
    Pin.trigCar ∈ pinsSet (measure_speed_dual_events (9 / 10)) ∧
    Pin.trigAni ∈ pinsSet (measure_speed_dual_events (9 / 10)) ∧
    Pin.trigCar ≠ Pin.led ∧ Pin.trigCar ≠ Pin.buzzer ∧
    Pin.trigAni ≠ Pin.led ∧ Pin.trigAni ≠ Pin.buzzer := by
  refine ⟨?_, ?_, by simp, by simp, by simp, by simp⟩ <;>
    simp [pinsSet, measure_speed_dual_events, measure_distance_events_old]

/-- C10 (amended): every invocation of `measure_speed_dual` pulses both
alert lines exactly once — driven high right after the first sample pair,
held high for the whole inter-sample sleep (the `delay` argument in
old.py, the hard-coded `1.2` s in speedtest.py), driven low again before
the second sample pair and left low on return — independent of any
collision decision; and the only other output lines changed are the two
sensor trigger lines pulsed by the four embedded distance measurements. -/
theorem measure_speed_dual_alert_pulse (delay : ℚ) :
    setsOn .led (measure_speed_dual_events delay) = [true, false] ∧
    setsOn .buzzer (measure_speed_dual_events delay) = [true, false] ∧
    (∃ A B, measure_speed_dual_events delay =
        A ++ [.setLine .led true, .setLine .buzzer true, .sleep delay,
          .setLine .led false, .setLine .buzzer false] ++ B ∧
        setsOn .led A = [] ∧ setsOn .buzzer A = [] ∧
        setsOn .led B = [] ∧ setsOn .buzzer B = []) ∧
    pinsSet (measure_speed_dual_events delay) =
      [.trigCar, .trigCar, .trigAni, .trigAni, .led, .buzzer, .led, .buzzer,
        .trigCar, .trigCar, .trigAni, .trigAni] ∧
    setsOn .led (measure_speed_dual_events_st delay) = [true, false] ∧
    setsOn .buzzer (measure_speed_dual_events_st delay) = [true, false] ∧
    (∃ A B, measure_speed_dual_events_st delay =
        A ++ [.setLine .led true, .setLine .buzzer true, .sleep (6 / 5),
          .setLine .led false, .setLine .buzzer false] ++ B ∧
        setsOn .led A = [] ∧ setsOn .buzzer A = [] ∧
        setsOn .led B = [] ∧ setsOn .buzzer B = []) ∧
    pinsSet (measure_speed_dual_events_st delay) =
      [.trigCar, .trigCar, .trigCar, .trigAni, .trigAni, .trigAni,
        .led, .buzzer, .led, .buzzer,
        .trigCar, .trigCar, .trigCar, .trigAni, .trigAni, .trigAni] := by
  refine ⟨rfl, rfl,
    ⟨measure_distance_events_old .trigCar ++ measure_distance_events_old .trigAni,
      measure_distance_events_old .trigCar ++ measure_distance_events_old .trigAni,
      ?_, rfl, rfl, rfl, rfl⟩, rfl, rfl, rfl,
    ⟨measure_distance_events_st .trigCar ++ measure_distance_events_st .trigAni,
      measure_distance_events_st .trigCar ++ measure_distance_events_st .trigAni,
      ?_, rfl, rfl, rfl, rfl⟩, rfl⟩ <;>
    simp [measure_speed_dual_events, measure_speed_dual_events_st,
      measure_distance_events_old, measure_distance_events_st]

end AnimalClassifier
